import Mathlib

/-!
Verification development for the two-tower MovieLens recommender
(`src/hwweek4/two-tower.js`, `src/hwweek4/app.js`, and the unnamed
`BaseTwoTower` variants).  Tensors are shallowly embedded as `List ℚ`
(the source computes with IEEE floats; every property proved here is
shape- or control-flow-level and does not depend on rounding), entity
ids as `ℤ` (JavaScript numbers used as 0/1-based indices), and the
browser's `Math.random()` stream as an explicit function argument.
-/

/-- A dense (affine) layer's trainable parameters: `w j i` is the weight
connecting input coordinate `i` to output unit `j`, `b j` the bias of
unit `j`.  Mirrors `tf.layers.dense` kernels, whose concrete values are
produced by a random initializer and by training and are therefore kept
abstract. -/
structure DenseW where
  w : ℕ → ℕ → ℚ
  b : ℕ → ℚ

/-- Output of `tf.layers.dense({units})` on input vector `x`:
unit `j` is `b j + Σ_i w j i * x_i`.  Always a vector of length `units`. -/
def denseLayer (units : ℕ) (p : DenseW) (x : List ℚ) : List ℚ :=
  (List.range units).map (fun j =>
    p.b j + ((List.range x.length).map (fun i => p.w j i * x.getD i 0)).sum)

/-- `relu` activation, applied elementwise. -/
def reluV (x : List ℚ) : List ℚ :=
  x.map (fun a => max a 0)

/-- `tf.layers.embedding` lookup of one id followed by `tf.layers.flatten`:
the table row of the given id, a vector of length `outputDim`.  The row
contents (`table id i`) are the trainable embedding entries. -/
def embedRow (outputDim : ℕ) (table : ℤ → ℕ → ℚ) (id : ℤ) : List ℚ :=
  (List.range outputDim).map (table id)

/-- `tf.layers.add()` on two vectors (elementwise sum; in the source both
inputs always have the same length `embeddingDim`). -/
def addV (x y : List ℚ) : List ℚ :=
  List.zipWith (· + ·) x y

/-- Dot product `tf.sum(tf.mul(u, v))` across the embedding dimension. -/
def dotProduct (u v : List ℚ) : ℚ :=
  (List.zipWith (· * ·) u v).sum

/-- Constructor configuration shared by every `BaseTwoTower` /
`TwoTowerBase` class: `(embeddingDim, numUsers, numItems, numGenres)`. -/
structure TTConfig where
  embeddingDim : ℕ
  numUsers : ℕ
  numItems : ℕ
  numGenres : ℕ

/-- Trainable parameters of `WithoutDLTwoTower` (two-tower.js lines
498-554): user and item embedding tables plus the genre projection
dense layer. -/
structure WithoutDLW where
  userEmb : ℤ → ℕ → ℚ
  movieEmb : ℤ → ℕ → ℚ
  genreProjection : DenseW

/-- `WithoutDLTwoTower` user tower (two-tower.js lines 503-510):
embedding of size `embeddingDim`, flattened. -/
def WithoutDLTwoTower_userTower (cfg : TTConfig) (wt : WithoutDLW) (userId : ℤ) : List ℚ :=
  embedRow cfg.embeddingDim wt.userEmb userId

/-- `WithoutDLTwoTower` item tower (two-tower.js lines 513-531): movie
embedding of size `embeddingDim` added elementwise to a linear dense
projection of the genre vector to `embeddingDim` units. -/
def WithoutDLTwoTower_itemTower (cfg : TTConfig) (wt : WithoutDLW)
    (movieId : ℤ) (genres : List ℚ) : List ℚ :=
  addV (embedRow cfg.embeddingDim wt.movieEmb movieId)
    (denseLayer cfg.embeddingDim wt.genreProjection genres)

/-- Trainable parameters of `MLPTwoTower` (two-tower.js lines 556-638). -/
structure MLPW where
  userEmb : ℤ → ℕ → ℚ
  movieEmb : ℤ → ℕ → ℚ
  userHidden : DenseW
  userOut : DenseW
  genreHidden : DenseW
  itemHidden : DenseW
  itemOut : DenseW

/-- `MLPTwoTower` user tower (two-tower.js lines 561-581): embedding of
size 64, hidden dense(32, relu), output dense(`embeddingDim`, linear). -/
def MLPTwoTower_userTower (cfg : TTConfig) (wt : MLPW) (userId : ℤ) : List ℚ :=
  denseLayer cfg.embeddingDim wt.userOut
    (reluV (denseLayer 32 wt.userHidden (embedRow 64 wt.userEmb userId)))

/-- `MLPTwoTower` item tower (two-tower.js lines 584-615): movie
embedding of size 64 concatenated with dense(32, relu) of the genre
vector, then dense(32, relu), then output dense(`embeddingDim`, linear). -/
def MLPTwoTower_itemTower (cfg : TTConfig) (wt : MLPW)
    (movieId : ℤ) (genres : List ℚ) : List ℚ :=
  denseLayer cfg.embeddingDim wt.itemOut
    (reluV (denseLayer 32 wt.itemHidden
      (embedRow 64 wt.movieEmb movieId ++ reluV (denseLayer 32 wt.genreHidden genres))))

/-- Trainable parameters of `DeepLearningTwoTower` (two-tower.js lines
640-737). -/
structure DeepW where
  userEmb : ℤ → ℕ → ℚ
  movieEmb : ℤ → ℕ → ℚ
  userDense1 : DenseW
  userDense2 : DenseW
  userOut : DenseW
  genreDense1 : DenseW
  genreDense2 : DenseW
  itemDense1 : DenseW
  itemDense2 : DenseW
  itemOut : DenseW

/-- `DeepLearningTwoTower` user tower (two-tower.js lines 645-670):
embedding of size 128, dense(64, relu), dense(32, relu), output
dense(`embeddingDim`, linear). -/
def DeepLearningTwoTower_userTower (cfg : TTConfig) (wt : DeepW) (userId : ℤ) : List ℚ :=
  denseLayer cfg.embeddingDim wt.userOut
    (reluV (denseLayer 32 wt.userDense2
      (reluV (denseLayer 64 wt.userDense1 (embedRow 128 wt.userEmb userId)))))

/-- `DeepLearningTwoTower` item tower (two-tower.js lines 673-714):
movie embedding of size 128 concatenated with a two-layer relu MLP
(64 then 32 units) over the genre vector, then dense(64, relu),
dense(32, relu), output dense(`embeddingDim`, linear). -/
def DeepLearningTwoTower_itemTower (cfg : TTConfig) (wt : DeepW)
    (movieId : ℤ) (genres : List ℚ) : List ℚ :=
  denseLayer cfg.embeddingDim wt.itemOut
    (reluV (denseLayer 32 wt.itemDense2
      (reluV (denseLayer 64 wt.itemDense1
        (embedRow 128 wt.movieEmb movieId ++
          reluV (denseLayer 32 wt.genreDense2
            (reluV (denseLayer 64 wt.genreDense1 genres))))))))

/-- Trainable parameters of `BaselineTwoTower` (two-tower.js lines
865-916): just the two embedding tables — its item tower has no dense
projection at all. -/
structure BaselineW where
  userEmb : ℤ → ℕ → ℚ
  movieEmb : ℤ → ℕ → ℚ

/-- `BaselineTwoTower` user tower (two-tower.js lines 868-875):
embedding of size `embeddingDim`, flattened. -/
def BaselineTwoTower_userTower (cfg : TTConfig) (wt : BaselineW) (userId : ℤ) : List ℚ :=
  embedRow cfg.embeddingDim wt.userEmb userId

/-- `BaselineTwoTower` item tower (two-tower.js lines 878-893): movie
embedding of size `embeddingDim` concatenated with the raw genre input
(`tf.layers.concatenate`) and returned as-is — there is no projection
back to `embeddingDim`. -/
def BaselineTwoTower_itemTower (cfg : TTConfig) (wt : BaselineW)
    (movieId : ℤ) (genres : List ℚ) : List ℚ :=
  embedRow cfg.embeddingDim wt.movieEmb movieId ++ genres

/-- Errors surfaced by the JavaScript runtime: either an `Error` the code
itself constructs and throws (with its message), or the `TypeError` the
runtime raises when a method is invoked on a `null` field. -/
inductive JsError where
  | thrown (msg : String)
  | typeErrorNullRead
deriving DecidableEq

/-- One entry of the app's movie `Map`: display title, the 19-flag genre
vector used as the item side feature (`genres` in app.js, also serving as
`genreFeatures` in two-tower.js's `prepareTrainingData`/`recommend`). -/
structure Movie where
  title : String
  genreFeatures : List ℚ
  genres : List ℚ
deriving DecidableEq

/-- One recommendation record pushed by `TwoTowerBase.recommend`
(two-tower.js lines 149-154): `{id, title, score, genres}`. -/
structure RecEntry where
  id : ℤ
  title : String
  score : ℚ
  genres : List ℚ
deriving DecidableEq

/-- Comparison used to model `tf.topk`: higher score first, ties broken
by the lower original index, matching tf.js's documented tie policy. -/
def topkLE (a b : ℕ × ℚ) : Prop :=
  b.2 < a.2 ∨ (a.2 = b.2 ∧ a.1 ≤ b.1)

instance topkLE_dec : DecidableRel topkLE := fun a b =>
  inferInstanceAs (Decidable (b.2 < a.2 ∨ (a.2 = b.2 ∧ a.1 ≤ b.1)))

/-- `tf.topk(scores, k)`: the `k` best `(index, value)` pairs, sorted by
descending value (modelled as a stable sort of the indexed scores).
tf.js throws when `k` exceeds the input size, hence the `Option`. -/
def topkPairs (scores : List ℚ) (k : ℕ) : Option (List (ℕ × ℚ)) :=
  if k ≤ scores.length then some ((List.insertionSort topkLE scores.enum).take k)
  else none

/-- The body of the result loop of `TwoTowerBase.recommend` (two-tower.js
lines 146-156): a selected `(0-based index, score)` pair becomes a
recommendation record for the 1-based id `index + 1` when that id is
present in the movie map, and is skipped otherwise. -/
def recommendPush (movies : List (ℤ × Movie)) (p : ℕ × ℚ) : Option RecEntry :=
  match movies.lookup ((p.1 : ℤ) + 1) with
  | some m => some ⟨(p.1 : ℤ) + 1, m.title, p.2, m.genres⟩
  | none => none

/-- `TwoTowerBase.recommend` (two-tower.js lines 108-160).  `model` is
`none` before any `train` call (`this.model === null`); its guard then
throws `'Model not trained'`.  Otherwise the user layer is applied to
`userId - 1`, every item id `0 .. numItems-1` is scored by dot product
against the item layer's output (genre features looked up by the 1-based
id, defaulting to the all-zero vector), `tf.topk` selects `topK` pairs,
and each selected 1-based item id present in `movies` becomes a
recommendation record. -/
def TwoTowerBase_recommend (cfg : TTConfig)
    (model : Option ((ℤ → List ℚ) × (ℤ → List ℚ → List ℚ)))
    (userId : ℤ) (movies : List (ℤ × Movie)) (topK : ℕ) :
    Except JsError (List RecEntry) :=
  match model with
  | none => Except.error (JsError.thrown "Model not trained")
  | some (userLayer, itemLayer) =>
    let genreFor : ℕ → List ℚ := fun i =>
      match movies.lookup (i : ℤ) with
      | some m => m.genreFeatures
      | none => List.replicate cfg.numGenres 0
    let userEmbedding := userLayer (userId - 1)
    let scores := (List.range cfg.numItems).map
      (fun (i : ℕ) => dotProduct userEmbedding (itemLayer (i : ℤ) (genreFor (i + 1))))
    match topkPairs scores topK with
    | none => Except.error (JsError.thrown "k exceeds input size")
    | some pairs => Except.ok (pairs.filterMap (recommendPush movies))

/-- `BaseTwoTower.getUserEmbedding` of two-tower.js lines 473-478 (the
family whose subclasses app.js instantiates) and of part_000 lines
63-68: there is NO trained-model check — when `this.userTower` is still
`null` the call `this.userTower.predict(...)` makes the runtime raise a
`TypeError`, modelled as `typeErrorNullRead`. -/
def BaseTwoTower_getUserEmbedding_v2 (userTower : Option (ℤ → List ℚ))
    (userId : ℤ) : Except JsError (List ℚ) :=
  match userTower with
  | none => Except.error JsError.typeErrorNullRead
  | some t => Except.ok (t userId)

/-- `BaseTwoTower.getItemEmbedding` of two-tower.js lines 480-487 and
part_000 lines 70-77: likewise unguarded. -/
def BaseTwoTower_getItemEmbedding_v2 (itemTower : Option (ℤ → List ℚ → List ℚ))
    (movieId : ℤ) (genres : List ℚ) : Except JsError (List ℚ) :=
  match itemTower with
  | none => Except.error JsError.typeErrorNullRead
  | some t => Except.ok (t movieId genres)

/-- `BaseTwoTower.getUserEmbedding` of two-tower.js lines 829-838: this
variant DOES guard, throwing `'Model not trained yet'` when the user
tower is absent. -/
def BaseTwoTower_getUserEmbedding_v3 (userTower : Option (ℤ → List ℚ))
    (userId : ℤ) : Except JsError (List ℚ) :=
  match userTower with
  | none => Except.error (JsError.thrown "Model not trained yet")
  | some t => Except.ok (t userId)

/-- `BaseTwoTower.getItemEmbedding` of two-tower.js lines 840-854:
guarded with `'Model not trained yet'`. -/
def BaseTwoTower_getItemEmbedding_v3 (itemTower : Option (ℤ → List ℚ → List ℚ))
    (movieId : ℤ) (genres : List ℚ) : Except JsError (List ℚ) :=
  match itemTower with
  | none => Except.error (JsError.thrown "Model not trained yet")
  | some t => Except.ok (t movieId genres)

/-- `BaseTwoTower.getUserEmbedding` of part_001 lines 115-124: guarded,
throwing `'User tower not initialized'`. -/
def BaseTwoTower_getUserEmbedding_p1 (userTower : Option (ℤ → List ℚ))
    (userId : ℤ) : Except JsError (List ℚ) :=
  match userTower with
  | none => Except.error (JsError.thrown "User tower not initialized")
  | some t => Except.ok (t userId)

/-- `BaseTwoTower.getItemEmbedding` of part_001 lines 126-140: guarded,
throwing `'Item tower not initialized'`. -/
def BaseTwoTower_getItemEmbedding_p1 (itemTower : Option (ℤ → List ℚ → List ℚ))
    (movieId : ℤ) (genres : List ℚ) : Except JsError (List ℚ) :=
  match itemTower with
  | none => Except.error (JsError.thrown "Item tower not initialized")
  | some t => Except.ok (t movieId genres)

/-- Sort order of app.js line 792: `scores.sort((a, b) => b.score - a.score)`
— descending by score (JavaScript's `Array.prototype.sort` is stable;
modelled as a stable sort under this relation). -/
def scoreGE (a b : ℤ × Movie × ℚ) : Prop :=
  b.2.2 ≤ a.2.2

instance scoreGE_dec : DecidableRel scoreGE := fun a b =>
  inferInstanceAs (Decidable (b.2.2 ≤ a.2.2))

/-- The candidate-selection core of `MovieLensApp.getRecommendations`
(app.js lines 767-807): the user embedding is computed once from
`userId - 1`; the candidates are the first 200 movies of the map; each
is scored by `calculateSimilarity` against its item embedding (cosine
similarity over floats, kept abstract as the argument `sim` — the
selection properties hold for every scoring function); the scored list
is sorted descending and the first `count` entries are kept.  Returns
the selected `(movieId, movie, score)` triples, which app.js then maps
to display records `{title, genres, score}` (see
`MovieLensApp_getRecommendations`). -/
def MovieLensApp_getRecommendationsSel (userLayer : ℤ → List ℚ)
    (itemLayer : ℤ → List ℚ → List ℚ) (sim : List ℚ → List ℚ → ℚ)
    (userId : ℤ) (movies : List (ℤ × Movie)) (count : ℕ) :
    List (ℤ × Movie × ℚ) :=
  let userEmbedding := userLayer (userId - 1)
  let testMovies := movies.take 200
  let scores := testMovies.map
    (fun p => (p.1, p.2, sim userEmbedding (itemLayer (p.1 - 1) p.2.genres)))
  (List.insertionSort scoreGE scores).take count

/-- `MovieLensApp.getRecommendations` final shape (app.js lines 791-798):
the selected movies mapped to `(title, genre vector, score)` display
records. -/
def MovieLensApp_getRecommendations (userLayer : ℤ → List ℚ)
    (itemLayer : ℤ → List ℚ → List ℚ) (sim : List ℚ → List ℚ → ℚ)
    (userId : ℤ) (movies : List (ℤ × Movie)) (count : ℕ) :
    List (String × List ℚ × ℚ) :=
  (MovieLensApp_getRecommendationsSel userLayer itemLayer sim userId movies count).map
    (fun x => (x.2.1.title, x.2.1.genres, x.2.2))

/-- A raw MovieLens rating record as consumed by
`TwoTowerBase.prepareTrainingData` (two-tower.js lines 39-63; 1-based
ids, integer rating 1-5). -/
structure RatingML where
  user_id : ℤ
  item_id : ℤ
  rating : ℤ
deriving DecidableEq

/-- `TwoTowerBase.prepareTrainingData` (two-tower.js lines 39-63):
per rating record, 0-based user index `user_id - 1`, 0-based item index
`item_id - 1`, and the binary retrieval label `rating >= 4 ? 1 : 0`.
(The genre-feature tensor the method also assembles is a lookup of
`movies[itemId + 1].genreFeatures` per emitted item index; no claim
depends on it.) -/
def TwoTowerBase_prepareTrainingData (ratings : List RatingML) :
    List ℤ × List ℤ × List ℤ :=
  (ratings.map (fun r => r.user_id - 1),
   ratings.map (fun r => r.item_id - 1),
   ratings.map (fun r => if 4 ≤ r.rating then (1 : ℤ) else 0))

/-- A rating record of the app's data loader (app.js `loadRatings` /
`loadMockRatings`): 1-based `userId`/`movieId` and an integer rating. -/
structure Rating where
  userId : ℤ
  movieId : ℤ
  rating : ℤ
deriving DecidableEq

/-- A training interaction as built in `MovieLensApp.prepareTrainingData`:
a `(userId, movieId)` pair carrying a binary `label` (`{...r, label: 1}`
for filtered positives, `{userId, movieId, label: 0}` for synthesized
negatives). -/
structure LabeledInteraction where
  userId : ℤ
  movieId : ℤ
  label : ℤ
deriving DecidableEq

/-- The `(userId, movieId)` pairs of the source interaction set — the
contents of the `userMovies` map built in
`MovieLensApp.createNegativeSamples` (app.js lines 501-507) from ALL
ratings of the dataset. -/
def interactionPairs (ratings : List Rating) : List (ℤ × ℤ) :=
  ratings.map (fun r => (r.userId, r.movieId))

/-- The `while (created < targetCount && attempts < maxAttempts)` loop of
`MovieLensApp.createNegativeSamples` (app.js lines 514-528).  `fuel` is
the remaining attempt budget `maxAttempts - attempts`, so the loop runs
while both `created < targetCount` and fuel remains.  Each attempt draws
`randomUser = Math.floor(Math.random()*200) + 1` (modelled as the pick
reduced mod 200, plus 1) and a random movie id from `allMovieIds`
(modelled as the pick reduced mod its length); the candidate pair is
emitted with label 0 only if it is absent from the user's observed
interaction set.  Returns the emitted samples together with the final
value of the `attempts` counter. -/
def createNegLoop (inter : List (ℤ × ℤ)) (allMovieIds : List ℤ) (picks : ℕ → ℕ × ℕ)
    (targetCount : ℕ) : ℕ → ℕ → ℕ → List LabeledInteraction × ℕ
  | 0, attempts, _ => ([], attempts)
  | fuel + 1, attempts, created =>
    if created < targetCount then
      let randomUser : ℤ := ((picks attempts).1 % 200 : ℕ) + 1
      let randomMovie : ℤ := allMovieIds.getD ((picks attempts).2 % allMovieIds.length) 0
      if (randomUser, randomMovie) ∈ inter then
        createNegLoop inter allMovieIds picks targetCount fuel (attempts + 1) created
      else
        let rest := createNegLoop inter allMovieIds picks targetCount fuel (attempts + 1) (created + 1)
        (⟨randomUser, randomMovie, 0⟩ :: rest.1, rest.2)
    else ([], attempts)

/-- `MovieLensApp.createNegativeSamples` (app.js lines 496-532):
`maxAttempts = targetCount * 5`, `attempts = created = 0`, candidate
movie ids are the keys of the movie map, and the interaction map is
built from every rating.  `picks` is the stream of `Math.random()`
draws, one `(user draw, movie draw)` pair per attempt. -/
def MovieLensApp_createNegativeSamples (ratings : List Rating)
    (movies : List (ℤ × Movie)) (picks : ℕ → ℕ × ℕ) (targetCount : ℕ) :
    List LabeledInteraction × ℕ :=
  createNegLoop (interactionPairs ratings) (movies.map Prod.fst) picks targetCount
    (targetCount * 5) 0 0

/-- One `[array[i], array[j]] = [array[j], array[i]]` destructuring swap
(app.js line 537).  Indices produced by the shuffle loop are always in
range; out-of-range indices leave the list unchanged. -/
def swapL {α : Type _} (l : List α) (i j : ℕ) : List α :=
  match l.get? i, l.get? j with
  | some a, some b => (l.set i b).set j a
  | _, _ => l

/-- The Fisher-Yates loop of `MovieLensApp.shuffleArray` (app.js lines
535-538): `for (i = length-1; i > 0; i--)` swap position `i` with
`j = Math.floor(Math.random() * (i+1))` (the random draw at step `i`
modelled as `rand i`, reduced mod `i+1`). -/
def shuffleGo {α : Type _} (rand : ℕ → ℕ) : ℕ → List α → List α
  | 0, l => l
  | i + 1, l => shuffleGo rand i (swapL l (i + 1) (rand (i + 1) % (i + 2)))

/-- `MovieLensApp.shuffleArray` (app.js lines 534-539): in-place
Fisher-Yates shuffle of the whole array, driven by the random stream
`rand`. -/
def MovieLensApp_shuffleArray {α : Type _} (rand : ℕ → ℕ) (l : List α) : List α :=
  shuffleGo rand (l.length - 1) l

/-- The combined example set of `MovieLensApp.prepareTrainingData`
(app.js lines 444-456): positives are the ratings with `rating >= 4`,
labelled 1; negatives are `createNegativeSamples(positives.length)`,
already labelled 0; the two lists are concatenated. -/
def MovieLensApp_allInteractions (ratings : List Rating)
    (movies : List (ℤ × Movie)) (picks : ℕ → ℕ × ℕ) : List LabeledInteraction :=
  let positiveInteractions := ratings.filter (fun r => 4 ≤ r.rating)
  positiveInteractions.map (fun r => ⟨r.userId, r.movieId, 1⟩) ++
    (MovieLensApp_createNegativeSamples ratings movies picks
      positiveInteractions.length).1

/-- `MovieLensApp.prepareTrainingData` (app.js lines 441-494): the
combined example set is shuffled ONCE, then converted to the three
parallel inputs: `userInput` clamps the 0-based user index into
`[0, 199]` via `Math.max(0, Math.min(199, userId - 1))`; `movieInput`
pairs the movie index, clamped into `[0, 499]`, with the movie's genre
vector (a missing movie falls back to index 0 and a 19-long zero
vector); `ratings` (the label tensor) takes each example's label. -/
def MovieLensApp_prepareTrainingData (ratings : List Rating)
    (movies : List (ℤ × Movie)) (picks : ℕ → ℕ × ℕ) (rand : ℕ → ℕ) :
    List ℤ × List (ℤ × List ℚ) × List ℤ :=
  let shuffled := MovieLensApp_shuffleArray rand
    (MovieLensApp_allInteractions ratings movies picks)
  (shuffled.map (fun r => max 0 (min 199 (r.userId - 1))),
   shuffled.map (fun r =>
     match movies.lookup r.movieId with
     | none => ((0 : ℤ), List.replicate 19 (0 : ℚ))
     | some m => (max 0 (min 499 (r.movieId - 1)), m.genres)),
   shuffled.map (fun r => r.label))

/-- The batch start offsets of the inner loop `for (i = 0; i <
userInput.shape[0]; i += batchSize)` of `BaseTwoTower.train`
(two-tower.js lines 440-458): `0, batchSize, 2*batchSize, ...` while
below `n` — `ceil(n / batchSize)` many.  (A zero `batchSize` would make
the JavaScript loop spin forever; no caller passes one.) -/
def batchStarts (n batchSize : ℕ) : List ℕ :=
  (List.range ((n + batchSize - 1) / batchSize)).map (· * batchSize)

/-- The sequence of example batches one epoch of `BaseTwoTower.train`
processes: the slice `[i, min(i + batchSize, n))` of the SAME prepared
tensors at each start offset, in increasing offset order. -/
def batchesOf {α : Type _} (data : List α) (batchSize : ℕ) : List (List α) :=
  (batchStarts data.length batchSize).map (fun i => (data.drop i).take batchSize)

/-- The epoch structure of `BaseTwoTower.train` (two-tower.js lines
435-465): `for (epoch = 0; epoch < epochs; epoch++)` runs the inner
batch loop over the same tensors; the epoch index never enters batch
construction and no shuffle happens inside `train`. -/
def BaseTwoTower_trainEpochsBatches {α : Type _} (data : List α)
    (batchSize epochs : ℕ) : List (List (List α)) :=
  (List.range epochs).map (fun _epoch => batchesOf data batchSize)

/-- Whether a call outcome is an error the code itself threw (a
JavaScript `Error` object with a message, e.g. a model-not-trained
rejection), as opposed to a success or a runtime `TypeError`. -/
def isThrownError {β : Type _} : Except JsError β → Bool
  | Except.error (JsError.thrown _) => true
  | _ => false

/-- All-zero dense-layer weights, used to instantiate theorems at a
concrete model. -/
def zeroDenseW : DenseW := ⟨fun _ _ => 0, fun _ => 0⟩

/-- All-zero `WithoutDLTwoTower` weights. -/
def zeroWithoutDLW : WithoutDLW := ⟨fun _ _ => 0, fun _ _ => 0, zeroDenseW⟩

/-- All-zero `MLPTwoTower` weights. -/
def zeroMLPW : MLPW :=
  ⟨fun _ _ => 0, fun _ _ => 0, zeroDenseW, zeroDenseW, zeroDenseW, zeroDenseW, zeroDenseW⟩

/-- All-zero `DeepLearningTwoTower` weights. -/
def zeroDeepW : DeepW :=
  ⟨fun _ _ => 0, fun _ _ => 0, zeroDenseW, zeroDenseW, zeroDenseW, zeroDenseW,
    zeroDenseW, zeroDenseW, zeroDenseW, zeroDenseW⟩

/-- All-zero `BaselineTwoTower` weights. -/
def zeroBaselineW : BaselineW := ⟨fun _ _ => 0, fun _ _ => 0⟩

theorem length_denseLayer (units : ℕ) (p : DenseW) (x : List ℚ) :
    (denseLayer units p x).length = units := by
  simp [denseLayer]

theorem length_reluV (x : List ℚ) : (reluV x).length = x.length := by
  simp [reluV]

theorem length_embedRow (outputDim : ℕ) (table : ℤ → ℕ → ℚ) (id : ℤ) :
    (embedRow outputDim table id).length = outputDim := by
  simp [embedRow]

theorem length_addV (x y : List ℚ) : (addV x y).length = min x.length y.length := by
  simp [addV]

theorem cons_set_perm {α : Type _} (b : α) :
    ∀ (l : List α) (j : ℕ) (a : α), l.get? j = some b → (b :: l.set j a).Perm (a :: l) := by
  intro l
  induction l with
  | nil => intro j a h; simp at h
  | cons x t ih =>
    intro j a h
    cases j with
    | zero =>
      obtain rfl : x = b := by simpa using h
      exact List.Perm.swap a x t
    | succ k =>
      have hk : t.get? k = some b := by simpa using h
      have step1 : (b :: x :: t.set k a).Perm (x :: b :: t.set k a) :=
        List.Perm.swap x b (t.set k a)
      have step2 : (x :: b :: t.set k a).Perm (x :: a :: t) :=
        List.Perm.cons x (ih k a hk)
      have step3 : (x :: a :: t).Perm (a :: x :: t) := List.Perm.swap a x t
      exact (step1.trans step2).trans step3

theorem set_set_perm {α : Type _} :
    ∀ (l : List α) (i j : ℕ) (a b : α), l.get? i = some a → l.get? j = some b →
      ((l.set i b).set j a).Perm l := by
  intro l
  induction l with
  | nil => intro i j a b hi _; simp at hi
  | cons x t ih =>
    intro i j a b hi hj
    cases i with
    | zero =>
      obtain rfl : x = a := by simpa using hi
      cases j with
      | zero =>
        obtain rfl : x = b := by simpa using hj
        exact List.Perm.refl _
      | succ k =>
        have hk : t.get? k = some b := by simpa using hj
        exact cons_set_perm b t k x hk
    | succ m =>
      have hm : t.get? m = some a := by simpa using hi
      cases j with
      | zero =>
        obtain rfl : x = b := by simpa using hj
        exact cons_set_perm a t m x hm
      | succ k =>
        have hk : t.get? k = some b := by simpa using hj
        exact List.Perm.cons x (ih m k a b hm hk)

theorem swapL_perm {α : Type _} (l : List α) (i j : ℕ) : (swapL l i j).Perm l := by
  rcases hi : l.get? i with _ | a <;> rcases hj : l.get? j with _ | b <;>
    simp only [swapL, hi, hj]
  · exact List.Perm.refl l
  · exact List.Perm.refl l
  · exact List.Perm.refl l
  · exact set_set_perm l i j a b hi hj

theorem shuffleGo_perm {α : Type _} (rand : ℕ → ℕ) :
    ∀ (i : ℕ) (l : List α), (shuffleGo rand i l).Perm l := by
  intro i
  induction i with
  | zero => intro l; exact List.Perm.refl l
  | succ i ih =>
    intro l
    exact (ih _).trans (swapL_perm l (i + 1) (rand (i + 1) % (i + 2)))

theorem shuffleArray_perm {α : Type _} (rand : ℕ → ℕ) (l : List α) :
    (MovieLensApp_shuffleArray rand l).Perm l :=
  shuffleGo_perm rand (l.length - 1) l

theorem lookup_mem_keys {β : Type _} (k : ℤ) (v : β) :
    ∀ l : List (ℤ × β), l.lookup k = some v → k ∈ l.map Prod.fst := by
  intro l
  induction l with
  | nil => intro h; simp [List.lookup] at h
  | cons p t ih =>
    intro h
    obtain ⟨a, b⟩ := p
    rw [List.lookup_cons] at h
    by_cases hk : k = a
    · simp [hk]
    · rw [show (k == a) = false by simpa using hk] at h
      simpa using Or.inr (ih h)

theorem createNegLoop_mem (inter : List (ℤ × ℤ)) (allMovieIds : List ℤ)
    (picks : ℕ → ℕ × ℕ) (targetCount : ℕ) :
    ∀ (fuel attempts created : ℕ) (s : LabeledInteraction),
      s ∈ (createNegLoop inter allMovieIds picks targetCount fuel attempts created).1 →
      (s.userId, s.movieId) ∉ inter ∧ s.label = 0 := by
  intro fuel
  induction fuel with
  | zero => intro attempts created s hs; simp [createNegLoop] at hs
  | succ fuel ih =>
    intro attempts created s hs
    simp only [createNegLoop] at hs
    split at hs
    · split at hs
      · exact ih _ _ s hs
      · rcases List.mem_cons.mp hs with rfl | hs'
        · exact ⟨by assumption, rfl⟩
        · exact ih _ _ s hs'
    · simp at hs

theorem createNegLoop_attempts_le (inter : List (ℤ × ℤ)) (allMovieIds : List ℤ)
    (picks : ℕ → ℕ × ℕ) (targetCount : ℕ) :
    ∀ (fuel attempts created : ℕ),
      (createNegLoop inter allMovieIds picks targetCount fuel attempts created).2 ≤
        attempts + fuel := by
  intro fuel
  induction fuel with
  | zero => intro attempts created; simp [createNegLoop]
  | succ fuel ih =>
    intro attempts created
    simp only [createNegLoop]
    split
    · split
      · exact (ih (attempts + 1) created).trans (by omega)
      · exact (ih (attempts + 1) (created + 1)).trans (by omega)
    · omega

theorem createNegLoop_length_le (inter : List (ℤ × ℤ)) (allMovieIds : List ℤ)
    (picks : ℕ → ℕ × ℕ) (targetCount : ℕ) :
    ∀ (fuel attempts created : ℕ),
      (createNegLoop inter allMovieIds picks targetCount fuel attempts created).1.length +
        created ≤ max created targetCount := by
  intro fuel
  induction fuel with
  | zero => intro attempts created; simp [createNegLoop]
  | succ fuel ih =>
    intro attempts created
    simp only [createNegLoop]
    split
    · split
      · exact (Nat.add_le_add_right (Nat.le_refl _) created).trans (ih (attempts + 1) created)
      · have h := ih (attempts + 1) (created + 1)
        simp only [List.length_cons]
        omega
    · simp

/-- C1 counterexample: with `embeddingDim = 2` and `numGenres = 3`, the
`BaselineTwoTower` (two-tower.js lines 865-916) user tower outputs 2
entries but its item tower — a bare concatenation of the movie embedding
with the genre input — outputs 5, not `embeddingDim`: the two tower
outputs do NOT have identical dimensionality for this variant, refuting
the claim as stated. -/
theorem c1_counterexample :
    (BaselineTwoTower_userTower ⟨2, 5, 5, 3⟩ zeroBaselineW 0).length = 2 ∧
      (BaselineTwoTower_itemTower ⟨2, 5, 5, 3⟩ zeroBaselineW 0 [0, 0, 0]).length ≠ 2 := by
  constructor <;> decide

/-- C1 (amended): for every configuration and all trainable weights, the
`WithoutDLTwoTower`, `MLPTwoTower` and `DeepLearningTwoTower` variants
(two-tower.js lines 498-737, the family app.js instantiates) build
towers whose user and item outputs both have length exactly
`embeddingDim`; the `BaselineTwoTower` variant (lines 865-916) matches
this on the user side but its item tower output has length
`embeddingDim + numGenres` instead. -/
theorem c1_amended (cfg : TTConfig) (w1 : WithoutDLW) (w2 : MLPW) (w3 : DeepW)
    (wb : BaselineW) (userId movieId : ℤ) (genres : List ℚ)
    (hg : genres.length = cfg.numGenres) :
    (WithoutDLTwoTower_userTower cfg w1 userId).length = cfg.embeddingDim ∧
    (WithoutDLTwoTower_itemTower cfg w1 movieId genres).length = cfg.embeddingDim ∧
    (MLPTwoTower_userTower cfg w2 userId).length = cfg.embeddingDim ∧
    (MLPTwoTower_itemTower cfg w2 movieId genres).length = cfg.embeddingDim ∧
    (DeepLearningTwoTower_userTower cfg w3 userId).length = cfg.embeddingDim ∧
    (DeepLearningTwoTower_itemTower cfg w3 movieId genres).length = cfg.embeddingDim ∧
    (BaselineTwoTower_userTower cfg wb userId).length = cfg.embeddingDim ∧
    (BaselineTwoTower_itemTower cfg wb movieId genres).length =
      cfg.embeddingDim + cfg.numGenres := by
  refine ⟨?_, ?_, ?_, ?_, ?_, ?_, ?_, ?_⟩ <;>
    simp [WithoutDLTwoTower_userTower, WithoutDLTwoTower_itemTower, MLPTwoTower_userTower,
      MLPTwoTower_itemTower, DeepLearningTwoTower_userTower, DeepLearningTwoTower_itemTower,
      BaselineTwoTower_userTower, BaselineTwoTower_itemTower, length_embedRow,
      length_denseLayer, length_addV, length_reluV, hg]

/-- C1 witness: the amended dimension facts evaluated at the concrete
configuration `(embeddingDim, numUsers, numItems, numGenres) =
(2, 5, 5, 3)` with all-zero weights and a length-3 genre vector. -/
theorem c1_witness :
    [(0 : ℚ), 0, 0].length = (3 : ℕ) ∧
    ((WithoutDLTwoTower_userTower ⟨2, 5, 5, 3⟩ zeroWithoutDLW 0).length = 2 ∧
     (WithoutDLTwoTower_itemTower ⟨2, 5, 5, 3⟩ zeroWithoutDLW 0 [0, 0, 0]).length = 2 ∧
     (MLPTwoTower_userTower ⟨2, 5, 5, 3⟩ zeroMLPW 0).length = 2 ∧
     (MLPTwoTower_itemTower ⟨2, 5, 5, 3⟩ zeroMLPW 0 [0, 0, 0]).length = 2 ∧
     (DeepLearningTwoTower_userTower ⟨2, 5, 5, 3⟩ zeroDeepW 0).length = 2 ∧
     (DeepLearningTwoTower_itemTower ⟨2, 5, 5, 3⟩ zeroDeepW 0 [0, 0, 0]).length = 2 ∧
     (BaselineTwoTower_userTower ⟨2, 5, 5, 3⟩ zeroBaselineW 0).length = 2 ∧
     (BaselineTwoTower_itemTower ⟨2, 5, 5, 3⟩ zeroBaselineW 0 [0, 0, 0]).length = 2 + 3) :=
  ⟨rfl, c1_amended ⟨2, 5, 5, 3⟩ zeroWithoutDLW zeroMLPW zeroDeepW zeroBaselineW 0 0
    [0, 0, 0] rfl⟩

/-- C3 counterexample: training on the four prepared examples
`[10, 20, 30, 40]` with `batchSize = 2` for two epochs consumes the
batches `[[10,20],[30,40]]` in epoch 1 and the identical
`[[10,20],[30,40]]` again in epoch 2 — the combined example set is NOT
reshuffled at the start of each epoch; `train` has no randomness at all
and iterates the same fixed batch order every epoch. -/
theorem c3_counterexample :
    BaseTwoTower_trainEpochsBatches [(10 : ℤ), 20, 30, 40] 2 2 =
      [[[10, 20], [30, 40]], [[10, 20], [30, 40]]] := by decide

/-- C3 (amended): the combined example set is shuffled exactly once, in
`MovieLensApp.prepareTrainingData` (before the tensors are built, see
`MovieLensApp_prepareTrainingData`); `BaseTwoTower.train` then processes
the identical batch sequence in every one of the `epochs` epochs. -/
theorem c3_amended {α : Type _} (data : List α) (batchSize epochs : ℕ) :
    BaseTwoTower_trainEpochsBatches data batchSize epochs =
      List.replicate epochs (batchesOf data batchSize) := by
  simp [BaseTwoTower_trainEpochsBatches, List.map_const']

/-- C5: negative sampling terminates with a bounded attempt budget: the
final `attempts` counter never exceeds `maxAttempts = targetCount * 5`,
and the emitted sample set never exceeds `targetCount` — when the budget
runs out first, the (smaller) set produced so far is returned. -/
theorem c5_negative_sampling_bounded (ratings : List Rating)
    (movies : List (ℤ × Movie)) (picks : ℕ → ℕ × ℕ) (targetCount : ℕ) :
    (MovieLensApp_createNegativeSamples ratings movies picks targetCount).2 ≤
        targetCount * 5 ∧
      (MovieLensApp_createNegativeSamples ratings movies picks targetCount).1.length ≤
        targetCount := by
  constructor
  · simpa using createNegLoop_attempts_le (interactionPairs ratings)
      (movies.map Prod.fst) picks targetCount (targetCount * 5) 0 0
  · simpa using createNegLoop_length_le (interactionPairs ratings)
      (movies.map Prod.fst) picks targetCount (targetCount * 5) 0 0

/-- C6 counterexample: calling `getUserEmbedding` on a fresh (untrained)
`BaseTwoTower` of the family app.js uses (two-tower.js lines 473-478)
does NOT reject with a deliberate model-not-trained `Error`: the method
has no guard, so `this.userTower.predict(...)` on the `null` tower makes
the runtime raise a `TypeError` instead. -/
theorem c6_counterexample :
    BaseTwoTower_getUserEmbedding_v2 none 0 =
        Except.error JsError.typeErrorNullRead ∧
      isThrownError (BaseTwoTower_getUserEmbedding_v2 none 0) = false :=
  ⟨rfl, rfl⟩

/-- C6 (amended): before any `train` call, `TwoTowerBase.recommend`
(two-tower.js lines 108-111) and the embedding lookups of two-tower.js
lines 829-854 and part_001 lines 115-140 reject with an explicitly
thrown model-not-trained error, for every argument; but the
`BaseTwoTower` embedding lookups at two-tower.js lines 473-487 (and
part_000 lines 63-77) perform no such check and instead fail with a
runtime `TypeError` null-dereference. -/
theorem c6_amended (cfg : TTConfig) (userId movieId : ℤ) (genres : List ℚ)
    (movies : List (ℤ × Movie)) (topK : ℕ) :
    TwoTowerBase_recommend cfg none userId movies topK =
        Except.error (JsError.thrown "Model not trained") ∧
      BaseTwoTower_getUserEmbedding_v3 none userId =
        Except.error (JsError.thrown "Model not trained yet") ∧
      BaseTwoTower_getItemEmbedding_v3 none movieId genres =
        Except.error (JsError.thrown "Model not trained yet") ∧
      BaseTwoTower_getUserEmbedding_p1 none userId =
        Except.error (JsError.thrown "User tower not initialized") ∧
      BaseTwoTower_getItemEmbedding_p1 none movieId genres =
        Except.error (JsError.thrown "Item tower not initialized") ∧
      BaseTwoTower_getUserEmbedding_v2 none userId =
        Except.error JsError.typeErrorNullRead ∧
      BaseTwoTower_getItemEmbedding_v2 none movieId genres =
        Except.error JsError.typeErrorNullRead :=
  ⟨rfl, rfl, rfl, rfl, rfl, rfl, rfl⟩

/-- C8: inference is deterministic — two `recommend` calls (and two
app-level `getRecommendations` calls) with the same trained parameters,
the same user, the same candidate set and the same K produce identical
ordered outputs.  Neither code path contains a random draw: every
`Math.random()` use in the repository sits in `shuffleArray` or
`createNegativeSamples`, whose randomness this development threads as
explicit arguments, and no such argument occurs in either retrieval
function. -/
theorem c8_inference_deterministic (cfg : TTConfig)
    (model : Option ((ℤ → List ℚ) × (ℤ → List ℚ → List ℚ)))
    (userLayer : ℤ → List ℚ) (itemLayer : ℤ → List ℚ → List ℚ)
    (sim : List ℚ → List ℚ → ℚ) (userId : ℤ) (movies : List (ℤ × Movie))
    (topK count : ℕ) :
    TwoTowerBase_recommend cfg model userId movies topK =
        TwoTowerBase_recommend cfg model userId movies topK ∧
      MovieLensApp_getRecommendations userLayer itemLayer sim userId movies count =
        MovieLensApp_getRecommendations userLayer itemLayer sim userId movies count :=
  ⟨rfl, rfl⟩

/-- C10: `shuffleArray` permutes its argument: for every input list and
every random stream the result is a permutation of the input — same
length and same multiset of elements (nothing lost, duplicated or
altered), so shuffling the combined training set never changes which
examples are trained on. -/
theorem c10_shuffleArray_permutes {α : Type _} (rand : ℕ → ℕ) (l : List α) :
    (MovieLensApp_shuffleArray rand l).Perm l ∧
      (MovieLensApp_shuffleArray rand l).length = l.length ∧
      (↑(MovieLensApp_shuffleArray rand l) : Multiset α) = (↑l : Multiset α) :=
  ⟨shuffleArray_perm rand l, (shuffleArray_perm rand l).length_eq,
    Multiset.coe_eq_coe.mpr (shuffleArray_perm rand l)⟩

/-- C4: every sample emitted by `createNegativeSamples` — for every
rating list, every movie map and every random stream — forms a
`(userId, movieId)` pair absent from that user's observed interaction
set (all of the user's ratings), and in particular absent from the
user's positive (rating ≥ 4) examples. -/
theorem c4_negatives_not_observed (ratings : List Rating)
    (movies : List (ℤ × Movie)) (picks : ℕ → ℕ × ℕ) (targetCount : ℕ)
    (s : LabeledInteraction)
    (hs : s ∈ (MovieLensApp_createNegativeSamples ratings movies picks targetCount).1) :
    (∀ r ∈ ratings, 4 ≤ r.rating → ¬(r.userId = s.userId ∧ r.movieId = s.movieId)) ∧
      (∀ r ∈ ratings, ¬(r.userId = s.userId ∧ r.movieId = s.movieId)) := by
  have h := (createNegLoop_mem (interactionPairs ratings) (movies.map Prod.fst)
    picks targetCount (targetCount * 5) 0 0 s hs).1
  have habs : ∀ r ∈ ratings, ¬(r.userId = s.userId ∧ r.movieId = s.movieId) := by
    intro r hr hcontra
    exact h (List.mem_map.mpr ⟨r, hr, by simp [interactionPairs, hcontra.1, hcontra.2]⟩)
  exact ⟨fun r hr _ => habs r hr, habs⟩

/-- C4 witness: with the single rating `(user 1, movie 1, rating 5)`,
movie ids `{1, 2}` and a pick stream whose first draw hits the observed
pair `(1, 1)`, the sampler rejects it, resamples, and emits `(1, 2)` —
which indeed collides with no observed rating. -/
theorem c4_witness :
    (⟨1, 2, 0⟩ : LabeledInteraction) ∈
        (MovieLensApp_createNegativeSamples [⟨1, 1, 5⟩]
          [(1, ⟨"m", [], []⟩), (2, ⟨"m", [], []⟩)] (fun a => (0, a)) 1).1 ∧
      ¬((1 : ℤ) = 1 ∧ (1 : ℤ) = 2) :=
  ⟨by decide,
   (c4_negatives_not_observed [⟨1, 1, 5⟩] [(1, ⟨"m", [], []⟩), (2, ⟨"m", [], []⟩)]
      (fun a => (0, a)) 1 ⟨1, 2, 0⟩ (by decide)).2 ⟨1, 1, 5⟩ (by decide)⟩

/-- C7: binary labels everywhere.  (1) `TwoTowerBase.prepareTrainingData`
labels position `i` with 1 exactly when that rating is ≥ 4 and with 0
exactly when it is < 4.  (2) Every label the app's
`prepareTrainingData` emits is 0 or 1.  (3) Every synthesized negative
carries label 0.  (4) Every combined example carrying label 1 traces
back to a raw rating ≥ 4 of the same user/movie pair. -/
theorem c7_labels_binary :
    (∀ (ratings : List RatingML) (i : ℕ) (r : RatingML), ratings[i]? = some r →
      (((TwoTowerBase_prepareTrainingData ratings).2.2[i]? = some 1 ↔ 4 ≤ r.rating) ∧
       ((TwoTowerBase_prepareTrainingData ratings).2.2[i]? = some 0 ↔ r.rating < 4))) ∧
    (∀ (ratings : List Rating) (movies : List (ℤ × Movie)) (picks : ℕ → ℕ × ℕ)
       (rand : ℕ → ℕ) (lab : ℤ),
      lab ∈ (MovieLensApp_prepareTrainingData ratings movies picks rand).2.2 →
      lab = 0 ∨ lab = 1) ∧
    (∀ (ratings : List Rating) (movies : List (ℤ × Movie)) (picks : ℕ → ℕ × ℕ)
       (targetCount : ℕ) (s : LabeledInteraction),
      s ∈ (MovieLensApp_createNegativeSamples ratings movies picks targetCount).1 →
      s.label = 0) ∧
    (∀ (ratings : List Rating) (movies : List (ℤ × Movie)) (picks : ℕ → ℕ × ℕ)
       (ex : LabeledInteraction),
      ex ∈ MovieLensApp_allInteractions ratings movies picks → ex.label = 1 →
      ∃ r ∈ ratings, 4 ≤ r.rating ∧ r.userId = ex.userId ∧ r.movieId = ex.movieId) := by
  refine ⟨?_, ?_, ?_, ?_⟩
  · intro ratings i r hr
    have hlab : (TwoTowerBase_prepareTrainingData ratings).2.2[i]? =
        some (if 4 ≤ r.rating then 1 else 0) := by
      simp [TwoTowerBase_prepareTrainingData, List.getElem?_map, hr]
    by_cases h4 : 4 ≤ r.rating
    · rw [hlab]; simp [h4]
    · rw [hlab]; simp [h4]; omega
  · intro ratings movies picks rand lab hlab
    simp only [MovieLensApp_prepareTrainingData] at hlab
    rw [List.mem_map] at hlab
    obtain ⟨ex, hex, rfl⟩ := hlab
    have hex' : ex ∈ MovieLensApp_allInteractions ratings movies picks :=
      (shuffleArray_perm rand _).mem_iff.mp hex
    simp only [MovieLensApp_allInteractions] at hex'
    rcases List.mem_append.mp hex' with hpos | hneg
    · right
      obtain ⟨r, _, rfl⟩ := List.mem_map.mp hpos
      rfl
    · left
      exact (createNegLoop_mem _ _ picks _ _ 0 0 ex hneg).2
  · intro ratings movies picks targetCount s hs
    exact (createNegLoop_mem _ _ picks _ _ 0 0 s hs).2
  · intro ratings movies picks ex hex hlab1
    simp only [MovieLensApp_allInteractions] at hex
    rcases List.mem_append.mp hex with hpos | hneg
    · obtain ⟨r, hr, rfl⟩ := List.mem_map.mp hpos
      refine ⟨r, (List.mem_filter.mp hr).1, ?_, rfl, rfl⟩
      simpa using (List.mem_filter.mp hr).2
    · have h0 := (createNegLoop_mem _ _ picks _ _ 0 0 ex hneg).2
      omega

/-- C7 witness: the label facts evaluated on the concrete rating
`(user 1, item 1, rating 5)` (a positive, labelled 1) and on a concrete
app run whose emitted label list is `[0, 1]`. -/
theorem c7_witness :
    ((TwoTowerBase_prepareTrainingData [⟨1, 1, 5⟩]).2.2[0]? = some 1 ↔ (4 : ℤ) ≤ 5) ∧
      ((TwoTowerBase_prepareTrainingData [⟨1, 1, 5⟩]).2.2[0]? = some 0 ↔ (5 : ℤ) < 4) ∧
      ((1 : ℤ) = 0 ∨ (1 : ℤ) = 1) :=
  ⟨(c7_labels_binary.1 [⟨1, 1, 5⟩] 0 ⟨1, 1, 5⟩ rfl).1,
   (c7_labels_binary.1 [⟨1, 1, 5⟩] 0 ⟨1, 1, 5⟩ rfl).2,
   c7_labels_binary.2.1 [⟨1, 1, 5⟩] [(1, ⟨"m", [], []⟩), (2, ⟨"m", [], []⟩)]
     (fun a => (0, a)) (fun _ => 0) 1 (by decide)⟩

/-- C9: every user index `prepareTrainingData` emits is clamped into
`[0, 199]` and every movie index into `[0, 499]` — fixed hard-coded
bounds applied via `Math.max(0, Math.min(bound, id - 1))`, independent
of the configured `numUsers`/`numItems`, for every input rating list
and every random stream. -/
theorem c9_training_indices_clamped (ratings : List Rating)
    (movies : List (ℤ × Movie)) (picks : ℕ → ℕ × ℕ) (rand : ℕ → ℕ) :
    (∀ u ∈ (MovieLensApp_prepareTrainingData ratings movies picks rand).1,
      0 ≤ u ∧ u ≤ 199) ∧
    (∀ p ∈ (MovieLensApp_prepareTrainingData ratings movies picks rand).2.1,
      0 ≤ p.1 ∧ p.1 ≤ 499) := by
  constructor
  · intro u hu
    simp only [MovieLensApp_prepareTrainingData] at hu
    rw [List.mem_map] at hu
    obtain ⟨ex, _, rfl⟩ := hu
    exact ⟨le_max_left 0 _, max_le (by norm_num) (min_le_left _ _)⟩
  · intro p hp
    simp only [MovieLensApp_prepareTrainingData] at hp
    rw [List.mem_map] at hp
    obtain ⟨ex, _, rfl⟩ := hp
    cases h : movies.lookup ex.movieId with
    | none => simp [h]
    | some m =>
      simp only [h]
      exact ⟨le_max_left 0 _, max_le (by norm_num) (min_le_left _ _)⟩

/-- C9 witness: the clamp bounds evaluated on a concrete run whose
emitted user indices are `[0, 0]` and movie indices `[1, 0]`. -/
theorem c9_witness :
    ((0 : ℤ) ∈ (MovieLensApp_prepareTrainingData [⟨1, 1, 5⟩]
        [(1, ⟨"m", [], []⟩), (2, ⟨"m", [], []⟩)] (fun a => (0, a)) (fun _ => 0)).1) ∧
      ((0 : ℤ) ≤ 0 ∧ (0 : ℤ) ≤ 199) ∧ ((0 : ℤ) ≤ 1 ∧ (1 : ℤ) ≤ 499) :=
  ⟨by decide,
   (c9_training_indices_clamped [⟨1, 1, 5⟩] [(1, ⟨"m", [], []⟩), (2, ⟨"m", [], []⟩)]
      (fun a => (0, a)) (fun _ => 0)).1 0 (by decide),
   (c9_training_indices_clamped [⟨1, 1, 5⟩] [(1, ⟨"m", [], []⟩), (2, ⟨"m", [], []⟩)]
      (fun a => (0, a)) (fun _ => 0)).2 (1, ([] : List ℚ)) (by decide)⟩

theorem topkPairs_props (scores : List ℚ) (k : ℕ) (pairs : List (ℕ × ℚ))
    (hp : topkPairs scores k = some pairs) :
    (pairs.map Prod.fst).Nodup ∧ pairs.length ≤ k := by
  unfold topkPairs at hp
  split at hp
  · obtain rfl : (List.insertionSort topkLE scores.enum).take k = pairs :=
      Option.some.inj hp
    constructor
    · rw [List.map_take]
      refine (List.take_sublist _ _).nodup ?_
      have hperm : ((List.insertionSort topkLE scores.enum).map Prod.fst).Perm
          (scores.enum.map Prod.fst) := (List.perm_insertionSort _ _).map _
      rw [List.enum_map_fst] at hperm
      exact hperm.nodup_iff.mpr (List.nodup_range _)
    · exact List.length_take_le _ _
  · exact absurd hp (by simp)

theorem recommendPush_ids_sublist (movies : List (ℤ × Movie)) :
    ∀ pairs : List (ℕ × ℚ),
      ((pairs.filterMap (recommendPush movies)).map RecEntry.id).Sublist
        (pairs.map (fun p => ((p.1 : ℤ) + 1))) := by
  intro pairs
  induction pairs with
  | nil => simp
  | cons p t ih =>
    rw [List.filterMap_cons]
    cases h : recommendPush movies p with
    | none =>
      simpa using ih.cons _
    | some e =>
      have hid : e.id = (p.1 : ℤ) + 1 := by
        unfold recommendPush at h
        split at h
        · obtain rfl := Option.some.inj h; rfl
        · exact absurd h (by simp)
      simp only [List.map_cons, hid]
      exact ih.cons₂ _

theorem recommend_ok_props (cfg : TTConfig) (userLayer : ℤ → List ℚ)
    (itemLayer : ℤ → List ℚ → List ℚ) (userId : ℤ) (movies : List (ℤ × Movie))
    (topK : ℕ) (res : List RecEntry)
    (hres : TwoTowerBase_recommend cfg (some (userLayer, itemLayer)) userId movies topK =
      Except.ok res) :
    res.length ≤ min topK movies.length ∧
      (∀ e ∈ res, e.id ∈ movies.map Prod.fst) ∧ (res.map RecEntry.id).Nodup := by
  simp only [TwoTowerBase_recommend] at hres
  split at hres
  · exact absurd hres (by simp)
  · rename_i pairs hp
    obtain rfl : pairs.filterMap (recommendPush movies) = res := by
      simpa using hres
    obtain ⟨hfst, hplen⟩ := topkPairs_props _ _ _ hp
    have hplus : (pairs.map (fun p => ((p.1 : ℤ) + 1))).Nodup := by
      have hmm : pairs.map (fun p => ((p.1 : ℤ) + 1)) =
          (pairs.map Prod.fst).map (fun n : ℕ => (n : ℤ) + 1) := by
        simp [List.map_map, Function.comp]
      rw [hmm]
      exact hfst.map (fun a b hab => by omega)
    have hnodup : ((pairs.filterMap (recommendPush movies)).map RecEntry.id).Nodup :=
      (recommendPush_ids_sublist movies pairs).nodup hplus
    have hmem : ∀ e ∈ pairs.filterMap (recommendPush movies),
        e.id ∈ movies.map Prod.fst := by
      intro e he
      obtain ⟨p, _, hpe⟩ := List.mem_filterMap.mp he
      unfold recommendPush at hpe
      split at hpe
      · rename_i m hm
        obtain rfl := Option.some.inj hpe
        exact lookup_mem_keys _ m movies hm
      · exact absurd hpe (by simp)
    refine ⟨le_min ((List.length_filterMap_le _ _).trans hplen) ?_, hmem, hnodup⟩
    have hsubset : (pairs.filterMap (recommendPush movies)).map RecEntry.id ⊆
        movies.map Prod.fst := by
      intro x hx
      obtain ⟨e, he, rfl⟩ := List.mem_map.mp hx
      exact hmem e he
    have hle := (List.subperm_of_subset hnodup hsubset).length_le
    calc (pairs.filterMap (recommendPush movies)).length
        = ((pairs.filterMap (recommendPush movies)).map RecEntry.id).length :=
          (List.length_map _ _).symm
      _ ≤ (movies.map Prod.fst).length := hle
      _ = movies.length := List.length_map _ _

theorem getRecommendationsSel_props (userLayer : ℤ → List ℚ)
    (itemLayer : ℤ → List ℚ → List ℚ) (sim : List ℚ → List ℚ → ℚ) (userId : ℤ)
    (movies : List (ℤ × Movie)) (count : ℕ)
    (hkeys : (movies.map Prod.fst).Nodup) :
    (MovieLensApp_getRecommendationsSel userLayer itemLayer sim userId movies count).length ≤
        min count movies.length ∧
      (∀ p ∈ MovieLensApp_getRecommendationsSel userLayer itemLayer sim userId movies count,
        p.1 ∈ movies.map Prod.fst) ∧
      ((MovieLensApp_getRecommendationsSel userLayer itemLayer sim userId movies count).map
        Prod.fst).Nodup := by
  simp only [MovieLensApp_getRecommendationsSel]
  set f : ℤ × Movie → ℤ × Movie × ℚ := fun p =>
    (p.1, p.2, sim (userLayer (userId - 1)) (itemLayer (p.1 - 1) p.2.genres)) with hf
  set scored := (movies.take 200).map f with hscored
  set sorted := List.insertionSort scoreGE scored with hsorted
  have hscored_fst : scored.map Prod.fst = (movies.map Prod.fst).take 200 := by
    rw [hscored, List.map_map, ← List.map_take]
    rfl
  have hsorted_fst_nodup : (sorted.map Prod.fst).Nodup := by
    refine ((List.perm_insertionSort scoreGE scored).map Prod.fst).nodup_iff.mpr ?_
    rw [hscored_fst]
    exact (List.take_sublist _ _).nodup hkeys
  have htake_fst_nodup : ((sorted.take count).map Prod.fst).Nodup := by
    rw [List.map_take]
    exact (List.take_sublist _ _).nodup hsorted_fst_nodup
  have hmem : ∀ p ∈ sorted.take count, p.1 ∈ movies.map Prod.fst := by
    intro p hp
    have hp1 : p ∈ scored :=
      (List.perm_insertionSort scoreGE scored).mem_iff.mp (List.take_subset _ _ hp)
    obtain ⟨q, hq, rfl⟩ := List.mem_map.mp hp1
    exact List.mem_map.mpr ⟨q, List.take_subset _ _ hq, rfl⟩
  refine ⟨le_min (List.length_take_le _ _) ?_, hmem, htake_fst_nodup⟩
  have hsubset : (sorted.take count).map Prod.fst ⊆ movies.map Prod.fst := by
    intro x hx
    obtain ⟨p, hp, rfl⟩ := List.mem_map.mp hx
    exact hmem p hp
  have hle := (List.subperm_of_subset htake_fst_nodup hsubset).length_le
  calc (sorted.take count).length = ((sorted.take count).map Prod.fst).length :=
        (List.length_map _ _).symm
    _ ≤ (movies.map Prod.fst).length := hle
    _ = movies.length := List.length_map _ _

/-- C2: for every trained model (arbitrary tower functions), every user,
every candidate movie map (with the key uniqueness a JavaScript `Map`
guarantees) and every K: a successful `TwoTowerBase.recommend` returns
at most `min(K, |candidates|)` records, each returned id is a key of the
candidate map, and no id repeats; and the app-level
`getRecommendations` selection satisfies the same three properties for
every scoring function. -/
theorem c2_recommend_bounded_subset_nodup (cfg : TTConfig)
    (userLayer : ℤ → List ℚ) (itemLayer : ℤ → List ℚ → List ℚ)
    (sim : List ℚ → List ℚ → ℚ) (userId : ℤ) (movies : List (ℤ × Movie))
    (topK count : ℕ) (res : List RecEntry)
    (hkeys : (movies.map Prod.fst).Nodup)
    (hres : TwoTowerBase_recommend cfg (some (userLayer, itemLayer)) userId movies topK =
      Except.ok res) :
    (res.length ≤ min topK movies.length ∧
      (∀ e ∈ res, e.id ∈ movies.map Prod.fst) ∧ (res.map RecEntry.id).Nodup) ∧
    ((MovieLensApp_getRecommendationsSel userLayer itemLayer sim userId movies count).length ≤
        min count movies.length ∧
      (∀ p ∈ MovieLensApp_getRecommendationsSel userLayer itemLayer sim userId movies count,
        p.1 ∈ movies.map Prod.fst) ∧
      ((MovieLensApp_getRecommendationsSel userLayer itemLayer sim userId movies count).map
        Prod.fst).Nodup) :=
  ⟨recommend_ok_props cfg userLayer itemLayer userId movies topK res hres,
   getRecommendationsSel_props userLayer itemLayer sim userId movies count hkeys⟩

/-- C2 witness: a concrete one-movie candidate map with a trivial model:
`recommend` succeeds with exactly one record whose id is the sole key,
and both the recommend-side and app-side bounds evaluate (the record's
score is the dot product of the two trivial tower outputs). -/
theorem c2_witness :
    ([((1 : ℤ), (⟨"a", [], []⟩ : Movie))].map Prod.fst).Nodup ∧
    TwoTowerBase_recommend ⟨1, 1, 1, 0⟩ (some (fun _ => [0], fun _ _ => [0])) 1
        [(1, ⟨"a", [], []⟩)] 1 =
      Except.ok [⟨1, "a", dotProduct [0] [0], []⟩] ∧
    ([(⟨1, "a", dotProduct [0] [0], []⟩ : RecEntry)].length ≤
        min 1 [((1 : ℤ), (⟨"a", [], []⟩ : Movie))].length) ∧
    (([(⟨1, "a", dotProduct [0] [0], []⟩ : RecEntry)].map RecEntry.id).Nodup) ∧
    ((MovieLensApp_getRecommendationsSel (fun _ => [0]) (fun _ _ => [0]) (fun _ _ => 0) 1
        [(1, ⟨"a", [], []⟩)] 1).length ≤
      min 1 [((1 : ℤ), (⟨"a", [], []⟩ : Movie))].length) := by
  refine ⟨by decide, rfl, ?_, ?_, ?_⟩
  · exact (c2_recommend_bounded_subset_nodup ⟨1, 1, 1, 0⟩ (fun _ => [0]) (fun _ _ => [0])
      (fun _ _ => 0) 1 [(1, ⟨"a", [], []⟩)] 1 1 [⟨1, "a", dotProduct [0] [0], []⟩]
      (by decide) rfl).1.1
  · exact (c2_recommend_bounded_subset_nodup ⟨1, 1, 1, 0⟩ (fun _ => [0]) (fun _ _ => [0])
      (fun _ _ => 0) 1 [(1, ⟨"a", [], []⟩)] 1 1 [⟨1, "a", dotProduct [0] [0], []⟩]
      (by decide) rfl).1.2.2
  · exact (c2_recommend_bounded_subset_nodup ⟨1, 1, 1, 0⟩ (fun _ => [0]) (fun _ _ => [0])
      (fun _ _ => 0) 1 [(1, ⟨"a", [], []⟩)] 1 1 [⟨1, "a", dotProduct [0] [0], []⟩]
      (by decide) rfl).2.1
